import Mathlib

/-!
Verification development for the TradingView-webhook-to-MEXC trading bot
(`src/app.py`).

The Python trading logic is shallowly embedded in Lean:

* Python `float` values that flow through the pipeline (prices, quantities,
  notional values) are modelled as exact rationals `ℚ`; none of the verified
  properties depends on binary floating-point rounding.
* The network is modelled by an `Env` record carrying the responses the
  exchange would return: the book-ticker response for
  `get_current_prices` (with `none` standing for a non-200 reply or a raised
  exception) and the HTTP response to the order-placement POST.
* Side effects are made explicit: each pipeline function returns, besides its
  result value, the list of market-data fetches performed, the list of URLs
  POSTed to the order endpoint, and the CSV audit log (a list of rows,
  threaded through so that appends are visible).
* `hmac.new(secret, msg, sha256).hexdigest()` is abstracted as an explicit
  function parameter `hmacHex : String → String → String`; the verified
  signing property is about which string is signed and transmitted, not about
  SHA-256 itself.  Likewise the Python rendering `str(round(x, 6))` of a
  float is abstracted as a parameter `fmt : ℚ → String`.
* String helpers (`split(':')`, `strip()`, `upper()`, `float(...)`) are given
  structurally recursive Lean counterparts (`pySplit`, `pyStrip`, `pyUpper`,
  `pyFloat`) so that concrete alerts evaluate inside the kernel.  `pyFloat`
  covers plain decimal literals with an optional sign, the fragment of
  Python's `float` grammar exercised by the alerts.
-/

namespace TVMexc

/-- Python's `str.split(c)` on a list of characters: splitting the empty
string yields `[""]`, exactly as in Python. -/
def splitChar (c : Char) : List Char → List (List Char)
  | [] => [[]]
  | x :: xs =>
    if x = c then [] :: splitChar c xs
    else
      match splitChar c xs with
      | [] => [[x]]
      | h :: t => (x :: h) :: t

/-- `message.split(c)` from the Python source. -/
def pySplit (s : String) (c : Char) : List String :=
  (splitChar c s.data).map (fun l => String.mk l)

/-- ASCII whitespace stripped by Python's `str.strip()`. -/
def isPySpace (c : Char) : Bool :=
  c = ' ' ∨ c = '\t' ∨ c = '\n' ∨ c = '\r' ∨ c = '\x0b' ∨ c = '\x0c'

/-- Python's `str.strip()`. -/
def pyStrip (s : String) : String :=
  String.mk (((s.data.dropWhile isPySpace).reverse.dropWhile isPySpace).reverse)

/-- Python's `str.upper()` (the alerts are ASCII, where `Char.toUpper`
agrees with Python). -/
def pyUpper (s : String) : String :=
  String.mk (s.data.map Char.toUpper)

/-- Numeric value of a digit string. -/
def digitsVal (l : List Char) : Nat :=
  l.foldl (fun n c => 10 * n + (c.toNat - 48)) 0

/-- Unsigned part of `pyFloat`: digits with an optional single decimal
point; at least one digit overall. -/
def pyFloatDigits (cs : List Char) : Option ℚ :=
  let intPart := cs.takeWhile (fun c => c.isDigit)
  let rest := cs.dropWhile (fun c => c.isDigit)
  if rest = [] then
    if intPart = [] then none else some ((digitsVal intPart : ℚ))
  else if rest.headD ' ' = '.' ∧ rest.tail.all (fun c => c.isDigit) = true
      ∧ (intPart ≠ [] ∨ rest.tail ≠ []) then
    some ((digitsVal intPart : ℚ) + (digitsVal rest.tail : ℚ) / ((10 : ℚ) ^ rest.tail.length))
  else none

/-- Python's `float(s)` on plain decimal literals: optional sign, digits,
optional fractional part.  `none` models a raised `ValueError`. -/
def pyFloat (s : String) : Option ℚ :=
  if s.data.headD ' ' = '-' then (pyFloatDigits s.data.tail).map (fun q => -q)
  else if s.data.headD ' ' = '+' then pyFloatDigits s.data.tail
  else pyFloatDigits s.data

/-- Parsed body of the `GET /api/v3/ticker/bookTicker` 200 response
(`bidPrice`, `askPrice`, `bidQty`, `askQty`, already converted by
`float(...)`). -/
structure BookTicker where
  bidPrice : ℚ
  askPrice : ℚ
  bidQty : ℚ
  askQty : ℚ
deriving DecidableEq

/-- HTTP response to the order-placement POST: `status_code`, body text,
and the `orderId` field of the JSON body (read only on a 200 reply). -/
structure ExchangeResponse where
  statusCode : Nat
  body : String
  orderId : String
deriving DecidableEq

/-- The bot's environment for one alert: credentials, the book-ticker
response the exchange would give (`none` = non-200 or exception), the
order-endpoint response, and the millisecond timestamp string. -/
structure Env where
  api_secret : String
  bookTicker : Option BookTicker
  orderResponse : ExchangeResponse
  timestamp : String
deriving DecidableEq

/-- The dict returned by `get_current_prices`, restricted to the `bid` and
`ask` keys, the only ones `place_real_order` reads (via `.get('bid', 0)` /
`.get('ask', 0)`). -/
structure Prices where
  bid : ℚ
  ask : ℚ
deriving DecidableEq

/-- `MexcTradingBot.get_current_prices`: on a 200 reply the parsed bid/ask,
on any failure (non-200 or exception) the fallback `{'bid': 0, 'ask': 0}`. -/
def get_current_prices (resp : Option BookTicker) : Prices :=
  match resp with
  | some d => ⟨d.bidPrice, d.askPrice⟩
  | none => ⟨0, 0⟩

/-- One row of `trade_log.csv`, as written by `log_trade` (the
`datetime.now()` timestamp column is not modelled; it carries no verified
content). -/
structure LogRow where
  symbol : String
  action : String
  strategy_price : ℚ
  order_price : ℚ
  quantity : ℚ
  bid : ℚ
  ask : ℚ
  status : String
  message : String
deriving DecidableEq

/-- `MexcTradingBot.log_trade`: appends one row to the CSV file. -/
def log_trade (log : List LogRow) (symbol action : String)
    (strategy_price order_price quantity bid ask : ℚ)
    (status message : String) : List LogRow :=
  log ++ [⟨symbol, action, strategy_price, order_price, quantity, bid, ask, status, message⟩]

/-- Result value of `place_real_order` (the dicts the Python function
returns, one constructor per return site). -/
inductive PlaceResult where
  /-- `{"error": "Не удалось получить цены с биржи"}` -/
  | noMarketData : PlaceResult
  /-- `{"error": f"Объем меньше минимального: ..."}`, carrying the computed
  order value. -/
  | belowMinNotional (orderValue : ℚ) : PlaceResult
  /-- `{"status": "success", "real_order": result}` -/
  | success (orderId : String) : PlaceResult
  /-- `{"error": error_msg}` for a non-200 exchange reply, carrying the raw
  status code and body. -/
  | apiError (statusCode : Nat) (body : String) : PlaceResult
deriving DecidableEq

/-- Observable outcome of `place_real_order`: its returned value plus the
effects it performed (market-data fetches, order-endpoint POSTs, and the
audit log after the call). -/
structure PlaceOutcome where
  result : PlaceResult
  marketFetches : List String
  submitted : List String
  log : List LogRow
deriving DecidableEq

/-- Line 108 of the source: `min_usdt_value = 1.0`. -/
def min_usdt_value : ℚ := 1

/-- Lines 99–104 of the source: buy at the current ask, sell at the current
bid. -/
def orderPriceFor (side : String) (p : Prices) : ℚ :=
  if pyUpper side = "BUY" then p.ask else p.bid

/-- The order-request parameter dict of lines 121–130, in insertion order,
with numeric fields already rendered by `fmt` (= `str(round(·, 6))`). -/
def orderParams (fmt : ℚ → String) (env : Env) (symbol side : String)
    (quantity order_price : ℚ) : List (String × String) :=
  [("symbol", symbol), ("side", pyUpper side), ("type", "LIMIT"),
   ("timeInForce", "GTC"), ("quantity", fmt quantity), ("price", fmt order_price),
   ("timestamp", env.timestamp), ("recvWindow", "5000")]

/-- Python's `<` on strings: lexicographic comparison of the code-point
sequences. -/
def strLtB : List Char → List Char → Bool
  | [], [] => false
  | [], _ :: _ => true
  | _ :: _, [] => false
  | a :: as, b :: bs =>
    if a.toNat < b.toNat then true
    else if b.toNat < a.toNat then false
    else strLtB as bs

/-- Python's `sorted` on `(key, value)` pairs of strings compares the pairs
lexicographically: first the key, then (on equal keys) the value; `pairLe`
is the corresponding reflexive total order. -/
def pairLe (a b : String × String) : Prop :=
  strLtB a.1.data b.1.data = true ∨ (a.1 = b.1 ∧ strLtB b.2.data a.2.data = false)

instance : DecidableRel pairLe := fun a b => by
  unfold pairLe; infer_instance

/-- `sorted(params.items())` from line 133. -/
def sortParams (l : List (String × String)) : List (String × String) :=
  l.insertionSort pairLe

/-- Line 133: `'&'.join([f"{k}={v}" for k, v in sorted(params.items())])`. -/
def canonicalQueryString (l : List (String × String)) : String :=
  String.intercalate "&" ((sortParams l).map (fun kv => kv.1 ++ "=" ++ kv.2))

/-- Base URL of the order endpoint (line 141). -/
def mexcOrderEndpoint : String := "https://api.mexc.com/api/v3/order"

/-- Line 171: `f"❌ MEXC API error: {response.status_code} - {response.text}"`. -/
def mexcApiErrorMsg (statusCode : Nat) (body : String) : String :=
  "❌ MEXC API error: " ++ toString statusCode ++ " - " ++ body

/-- `MexcTradingBot.place_real_order` (lines 87–192): fetch prices, bail out
on missing market data, price the order at the live quote, enforce the
1-USDT minimum notional, build and sign the request, POST it once, and log
the terminal submission outcome. -/
def place_real_order (fmt : ℚ → String) (hmacHex : String → String → String)
    (env : Env) (log0 : List LogRow) (symbol side : String)
    (quantity strategy_price : ℚ) : PlaceOutcome :=
  let prices := get_current_prices env.bookTicker
  let current_bid := prices.bid
  let current_ask := prices.ask
  if current_ask ≤ 0 ∨ current_bid ≤ 0 then
    ⟨.noMarketData, [symbol], [], log0⟩
  else
    let order_price := orderPriceFor side prices
    let order_value := quantity * order_price
    if order_value < min_usdt_value then
      ⟨.belowMinNotional order_value, [symbol], [], log0⟩
    else
      let params := orderParams fmt env symbol side quantity order_price
      let query_string := canonicalQueryString params
      let signature := hmacHex env.api_secret query_string
      let url := mexcOrderEndpoint ++ "?" ++ query_string ++ "&signature=" ++ signature
      let resp := env.orderResponse
      if resp.statusCode = 200 then
        ⟨.success resp.orderId, [symbol], [url],
         log_trade log0 symbol (pyUpper side) strategy_price order_price quantity
           current_bid current_ask "SUCCESS" ("Order " ++ resp.orderId)⟩
      else
        ⟨.apiError resp.statusCode resp.body, [symbol], [url],
         log_trade log0 symbol (pyUpper side) strategy_price order_price quantity
           current_bid current_ask "ERROR" (mexcApiErrorMsg resp.statusCode resp.body)⟩

/-- Result value of `process_tradingview_alert`, one constructor per return
site of the Python function. -/
inductive AlertResult where
  /-- `{"error": "Неверный формат сообщения", "received": message}` -/
  | invalidFormat (received : String) : AlertResult
  /-- the `except` clause catching the `ValueError` raised by `float(...)` -/
  | invalidNumber : AlertResult
  /-- `{"error": "Неверное количество"}` -/
  | invalidQuantity : AlertResult
  /-- `{"error": f"Неизвестное действие: {action}"}` -/
  | unknownAction (action : String) : AlertResult
  /-- `{"status": "buy_order_placed" | "sell_order_placed", "symbol": ...,
  "quantity": ..., "strategy_price": ..., "result": result}` -/
  | orderPlaced (status symbol : String) (quantity strategy_price : ℚ)
      (result : PlaceResult) : AlertResult
deriving DecidableEq

/-- Observable outcome of `process_tradingview_alert`: returned value plus
the effects of the call. -/
structure AlertOutcome where
  result : AlertResult
  marketFetches : List String
  submitted : List String
  log : List LogRow
deriving DecidableEq

/-- Wraps a `place_real_order` outcome into the success-shaped dict of
lines 217–233. -/
def mkAlertOutcome (status symbol : String) (quantity strategy_price : ℚ)
    (o : PlaceOutcome) : AlertOutcome :=
  ⟨.orderPlaced status symbol quantity strategy_price o.result,
   o.marketFetches, o.submitted, o.log⟩

/-- `MexcTradingBot.process_tradingview_alert` (lines 194–240): split the
message on `:`, require at least 4 fields, upper-case action and symbol,
parse the two numeric fields, reject a non-positive quantity, and dispatch
on the action. -/
def process_tradingview_alert (fmt : ℚ → String) (hmacHex : String → String → String)
    (env : Env) (log0 : List LogRow) (message : String) : AlertOutcome :=
  let parts := pySplit message ':'
  if parts.length < 4 then ⟨.invalidFormat message, [], [], log0⟩
  else
    let action := pyUpper (pyStrip (parts.getD 0 ""))
    let symbol := pyUpper (pyStrip (parts.getD 1 ""))
    match pyFloat (pyStrip (parts.getD 2 "")), pyFloat (pyStrip (parts.getD 3 "")) with
    | some quantity, some strategy_price =>
      if quantity ≤ 0 then ⟨.invalidQuantity, [], [], log0⟩
      else if action = "BUY" then
        mkAlertOutcome "buy_order_placed" symbol quantity strategy_price
          (place_real_order fmt hmacHex env log0 symbol "BUY" quantity strategy_price)
      else if action = "SELL" then
        mkAlertOutcome "sell_order_placed" symbol quantity strategy_price
          (place_real_order fmt hmacHex env log0 symbol "SELL" quantity strategy_price)
      else ⟨.unknownAction action, [], [], log0⟩
    | _, _ => ⟨.invalidNumber, [], [], log0⟩

/-- Modelled from the spec: the Order Tracker does not appear in
`src/app.py` (the spec documents it as part of the repository's trading
logic outside this file); the default polling interval, in time units. -/
def pollIntervalDefault : Nat := 5

/-- Modelled from the spec: the Order Tracker's default polling budget. -/
def maxChecksDefault : Nat := 12

/-- Modelled from the spec: order statuses reported by the exchange's
order-status endpoint (`PART_FILLED` stands for the `PARTIALLY_FILLED`
wire status). -/
inductive OrderStatus where
  | NEW
  | PART_FILLED
  | FILLED
  | CANCELED
  | EXPIRED
  | REJECTED
deriving DecidableEq

/-- Modelled from the spec: the statuses on which the tracker stops and
records a terminal failure. -/
def isTerminalFailure : OrderStatus → Bool
  | .CANCELED => true
  | .EXPIRED => true
  | .REJECTED => true
  | _ => false

/-- Modelled from the spec: the outcome the Order Tracker records, carrying
the number of polls performed before stopping. -/
inductive TrackOutcome where
  | filledOutcome (polls : Nat)
  | failureOutcome (s : OrderStatus) (polls : Nat)
  | timeoutOutcome (polls : Nat)
deriving DecidableEq

/-- Modelled from the spec: the polling loop; `statusAt n` is the status
the exchange reports on the (0-based) n-th poll, `budget` the checks
remaining, `done` the polls already performed.  Stop with success on
`FILLED`, with a terminal failure on `CANCELED`/`EXPIRED`/`REJECTED`,
otherwise poll again; record a timeout when the budget runs out. -/
def trackFrom (statusAt : Nat → OrderStatus) : Nat → Nat → TrackOutcome
  | 0, done => .timeoutOutcome done
  | budget + 1, done =>
    if statusAt done = .FILLED then .filledOutcome (done + 1)
    else if isTerminalFailure (statusAt done) = true then
      .failureOutcome (statusAt done) (done + 1)
    else trackFrom statusAt budget (done + 1)

/-- Modelled from the spec: `track(orderId, symbol)` polls up to
`maxChecksDefault` times. -/
def track (statusAt : Nat → OrderStatus) : TrackOutcome :=
  trackFrom statusAt maxChecksDefault 0

/-- Modelled from the spec: the fixed polling schedule — the i-th poll
(1-based) happens at time `pollIntervalDefault * i`, i.e. one interval
after the previous one. -/
def pollTimes (n : Nat) : List Nat :=
  (List.range n).map (fun i => pollIntervalDefault * (i + 1))

/-- Trivial rendering function standing in for `str(round(·, 6))` in
concrete runs. -/
def fmt0 : ℚ → String := fun _ => "0"

/-- Trivial keyed-hash stand-in used to instantiate `hmacHex` in concrete
runs. -/
def hmac0 : String → String → String := fun _ m => m

/-- Environment with a live market (bid = ask = 1) and a 200 exchange
reply carrying order id 42. -/
def envOk : Env := ⟨"secret", some ⟨1, 1, 1, 1⟩, ⟨200, "{}", "42"⟩, "1700000000000"⟩

/-- Environment with the spec's XRPUSDT snapshot (bid 0.49, ask 0.50) and
a 200 exchange reply. -/
def envXrp : Env := ⟨"secret", some ⟨49/100, 1/2, 1, 1⟩, ⟨200, "{}", "42"⟩, "1700000000000"⟩

/-- Environment whose book-ticker request fails. -/
def envNoMarket : Env := ⟨"secret", none, ⟨200, "{}", "42"⟩, "1700000000000"⟩

/-- Environment with a live market and a 400 exchange rejection. -/
def envReject : Env := ⟨"secret", some ⟨1, 1, 1, 1⟩, ⟨400, "Oversold", ""⟩, "1700000000000"⟩

end TVMexc

namespace TVMexc

/-- Boolean consequence: a Boolean that is not `true` is `false`. -/
theorem bool_eq_false {b : Bool} (h : ¬ b = true) : b = false := by
  cases b
  · rfl
  · exact absurd rfl h

/-- Characters with equal code points are equal. -/
theorem char_eq_of_toNat_eq {a b : Char} (h : a.toNat = b.toNat) : a = b :=
  Char.eq_of_val_eq (UInt32.ext h)

/-- Strings with equal character lists are equal. -/
theorem string_eq_of_data_eq : ∀ {s t : String}, s.data = t.data → s = t
  | ⟨_⟩, ⟨_⟩, h => congrArg String.mk h

/-- String comparison is irreflexive. -/
theorem strLtB_irrefl : ∀ a : List Char, strLtB a a = false := by
  intro a
  induction a with
  | nil => rfl
  | cons x xs ih => simp [strLtB, ih]

/-- String comparison is asymmetric. -/
theorem strLtB_asymm : ∀ a b : List Char, strLtB a b = true → strLtB b a = false := by
  intro a
  induction a with
  | nil =>
    intro b h
    cases b with
    | nil => simp [strLtB] at h
    | cons y ys => rfl
  | cons x xs ih =>
    intro b h
    cases b with
    | nil => simp [strLtB] at h
    | cons y ys =>
      simp only [strLtB] at h ⊢
      by_cases h1 : x.toNat < y.toNat
      · have h2 : ¬ y.toNat < x.toNat := by omega
        simp [h1, h2]
      · by_cases h2 : y.toNat < x.toNat
        · simp [h1, h2] at h
        · simp only [if_neg h1, if_neg h2] at h ⊢
          exact ih ys h

/-- String comparison is transitive. -/
theorem strLtB_trans :
    ∀ a b c : List Char, strLtB a b = true → strLtB b c = true → strLtB a c = true := by
  intro a
  induction a with
  | nil =>
    intro b c hab hbc
    cases b with
    | nil => simp [strLtB] at hab
    | cons y ys =>
      cases c with
      | nil => simp [strLtB] at hbc
      | cons z zs => rfl
  | cons x xs ih =>
    intro b c hab hbc
    cases b with
    | nil => simp [strLtB] at hab
    | cons y ys =>
      cases c with
      | nil => simp [strLtB] at hbc
      | cons z zs =>
        simp only [strLtB] at hab hbc ⊢
        by_cases h1 : x.toNat < y.toNat <;> by_cases h2 : y.toNat < z.toNat
        · have h3 : x.toNat < z.toNat := by omega
          simp [h3]
        · by_cases h4 : z.toNat < y.toNat
          · simp [h2, h4] at hbc
          · have h3 : x.toNat < z.toNat := by omega
            simp [h3]
        · by_cases h4 : y.toNat < x.toNat
          · simp [h1, h4] at hab
          · have h3 : x.toNat < z.toNat := by omega
            simp [h3]
        · by_cases h4 : y.toNat < x.toNat
          · simp [h1, h4] at hab
          · by_cases h5 : z.toNat < y.toNat
            · simp [h2, h5] at hbc
            · have h6 : ¬ x.toNat < z.toNat := by omega
              have h7 : ¬ z.toNat < x.toNat := by omega
              simp only [if_neg h1, if_neg h4] at hab
              simp only [if_neg h2, if_neg h5] at hbc
              simp only [if_neg h6, if_neg h7]
              exact ih ys zs hab hbc

/-- Two strings neither of which compares below the other are equal. -/
theorem eq_of_strLtB_false :
    ∀ a b : List Char, strLtB a b = false → strLtB b a = false → a = b := by
  intro a
  induction a with
  | nil =>
    intro b hab _
    cases b with
    | nil => rfl
    | cons y ys => simp [strLtB] at hab
  | cons x xs ih =>
    intro b hab hba
    cases b with
    | nil => simp [strLtB] at hba
    | cons y ys =>
      simp only [strLtB] at hab hba
      by_cases h1 : x.toNat < y.toNat
      · simp [h1] at hab
      · by_cases h2 : y.toNat < x.toNat
        · simp [h1, h2] at hba
        · simp only [if_neg h1, if_neg h2] at hab hba
          have hx : x = y := char_eq_of_toNat_eq (by omega)
          rw [hx, ih ys hab hba]

/-- Weak transitivity for the negative direction of string comparison. -/
theorem strLtB_false_trans :
    ∀ a b c : List Char, strLtB b a = false → strLtB c b = false → strLtB c a = false := by
  intro a b c h1 h2
  by_cases h : strLtB c a = true
  · by_cases h3 : strLtB a b = true
    · have h4 := strLtB_trans c a b h h3
      rw [h4] at h2
      cases h2
    · have hab : a = b := eq_of_strLtB_false a b (bool_eq_false h3) h1
      rw [hab] at h
      rw [h] at h2
      cases h2
  · exact bool_eq_false h

/-- The Python pair order is total. -/
theorem pairLe_total : ∀ a b : String × String, pairLe a b ∨ pairLe b a := by
  intro a b
  by_cases h1 : strLtB a.1.data b.1.data = true
  · exact Or.inl (Or.inl h1)
  · by_cases h2 : strLtB b.1.data a.1.data = true
    · exact Or.inr (Or.inl h2)
    · have hk : a.1 = b.1 :=
        string_eq_of_data_eq (eq_of_strLtB_false _ _ (bool_eq_false h1) (bool_eq_false h2))
      by_cases h3 : strLtB b.2.data a.2.data = true
      · exact Or.inr (Or.inr ⟨hk.symm, strLtB_asymm _ _ h3⟩)
      · exact Or.inl (Or.inr ⟨hk, bool_eq_false h3⟩)

/-- The Python pair order is transitive. -/
theorem pairLe_trans :
    ∀ a b c : String × String, pairLe a b → pairLe b c → pairLe a c := by
  intro a b c hab hbc
  rcases hab with hab | ⟨hk1, hv1⟩
  · rcases hbc with hbc | ⟨hk2, hv2⟩
    · exact Or.inl (strLtB_trans _ _ _ hab hbc)
    · left
      rw [← hk2]
      exact hab
  · rcases hbc with hbc | ⟨hk2, hv2⟩
    · left
      rw [hk1]
      exact hbc
    · right
      exact ⟨hk1.trans hk2, strLtB_false_trans _ _ _ hv1 hv2⟩

/-- The Python pair order is antisymmetric. -/
theorem pairLe_antisymm :
    ∀ a b : String × String, pairLe a b → pairLe b a → a = b := by
  intro a b hab hba
  rcases hab with hab | ⟨hk1, hv1⟩
  · rcases hba with hba | ⟨hk2, hv2⟩
    · rw [strLtB_asymm _ _ hab] at hba
      cases hba
    · rw [hk2] at hab
      rw [strLtB_irrefl] at hab
      cases hab
  · rcases hba with hba | ⟨hk2, hv2⟩
    · rw [hk1] at hba
      rw [strLtB_irrefl] at hba
      cases hba
    · have hv : a.2 = b.2 := string_eq_of_data_eq (eq_of_strLtB_false _ _ hv2 hv1)
      exact Prod.ext hk1 hv

end TVMexc

namespace TVMexc

/-- `sortParams` permutes its input. -/
theorem sortParams_perm (l : List (String × String)) : (sortParams l).Perm l :=
  List.perm_insertionSort pairLe l

/-- `sortParams` sorts with respect to the Python pair order. -/
theorem sortParams_sorted (l : List (String × String)) : (sortParams l).Sorted pairLe := by
  haveI : IsTotal (String × String) pairLe := ⟨pairLe_total⟩
  haveI : IsTrans (String × String) pairLe := ⟨pairLe_trans⟩
  exact List.sorted_insertionSort pairLe l

/-- Sorting is canonical: two permuted parameter lists sort identically. -/
theorem sortParams_eq_of_perm {l l' : List (String × String)} (h : l.Perm l') :
    sortParams l = sortParams l' := by
  haveI : IsAntisymm (String × String) pairLe := ⟨pairLe_antisymm⟩
  exact List.eq_of_perm_of_sorted
    ((sortParams_perm l).trans (h.trans (sortParams_perm l').symm))
    (sortParams_sorted l) (sortParams_sorted l')

/-- The canonical query string does not depend on parameter insertion
order. -/
theorem canonicalQueryString_perm {l l' : List (String × String)} (h : l.Perm l') :
    canonicalQueryString l = canonicalQueryString l' := by
  unfold canonicalQueryString
  rw [sortParams_eq_of_perm h]

/-- The canonical parameter order is ascending in the key: no later key
compares strictly below an earlier one. -/
theorem sortParams_keys_sorted (l : List (String × String)) :
    (sortParams l).Pairwise (fun a b : String × String => strLtB b.1.data a.1.data = false) := by
  refine List.Pairwise.imp ?_ (sortParams_sorted l)
  intro a b hab
  rcases hab with hab | ⟨hk, _⟩
  · exact strLtB_asymm _ _ hab
  · rw [hk]
    exact strLtB_irrefl _

end TVMexc

namespace TVMexc

/-- Full evaluation of `place_real_order` when market data is live, the
notional check passes, and the exchange replies 200. -/
theorem place_success_eval (fmt : ℚ → String) (hmacHex : String → String → String)
    (env : Env) (log0 : List LogRow) (symbol side : String) (quantity strategy_price : ℚ)
    (hmkt : ¬ ((get_current_prices env.bookTicker).ask ≤ 0 ∨
               (get_current_prices env.bookTicker).bid ≤ 0))
    (hval : ¬ quantity * orderPriceFor side (get_current_prices env.bookTicker) < min_usdt_value)
    (h200 : env.orderResponse.statusCode = 200) :
    place_real_order fmt hmacHex env log0 symbol side quantity strategy_price =
      ⟨.success env.orderResponse.orderId, [symbol],
       [mexcOrderEndpoint ++ "?"
          ++ canonicalQueryString (orderParams fmt env symbol side quantity
               (orderPriceFor side (get_current_prices env.bookTicker)))
          ++ "&signature="
          ++ hmacHex env.api_secret (canonicalQueryString (orderParams fmt env symbol side quantity
               (orderPriceFor side (get_current_prices env.bookTicker))))],
       log0 ++ [⟨symbol, pyUpper side, strategy_price,
                 orderPriceFor side (get_current_prices env.bookTicker), quantity,
                 (get_current_prices env.bookTicker).bid, (get_current_prices env.bookTicker).ask,
                 "SUCCESS", "Order " ++ env.orderResponse.orderId⟩]⟩ := by
  simp only [place_real_order]
  rw [if_neg hmkt, if_neg hval, if_pos h200]
  simp [log_trade]

/-- Full evaluation of `place_real_order` when market data is live, the
notional check passes, and the exchange rejects with a non-200 status. -/
theorem place_apiError_eval (fmt : ℚ → String) (hmacHex : String → String → String)
    (env : Env) (log0 : List LogRow) (symbol side : String) (quantity strategy_price : ℚ)
    (hmkt : ¬ ((get_current_prices env.bookTicker).ask ≤ 0 ∨
               (get_current_prices env.bookTicker).bid ≤ 0))
    (hval : ¬ quantity * orderPriceFor side (get_current_prices env.bookTicker) < min_usdt_value)
    (h200 : ¬ env.orderResponse.statusCode = 200) :
    place_real_order fmt hmacHex env log0 symbol side quantity strategy_price =
      ⟨.apiError env.orderResponse.statusCode env.orderResponse.body, [symbol],
       [mexcOrderEndpoint ++ "?"
          ++ canonicalQueryString (orderParams fmt env symbol side quantity
               (orderPriceFor side (get_current_prices env.bookTicker)))
          ++ "&signature="
          ++ hmacHex env.api_secret (canonicalQueryString (orderParams fmt env symbol side quantity
               (orderPriceFor side (get_current_prices env.bookTicker))))],
       log0 ++ [⟨symbol, pyUpper side, strategy_price,
                 orderPriceFor side (get_current_prices env.bookTicker), quantity,
                 (get_current_prices env.bookTicker).bid, (get_current_prices env.bookTicker).ask,
                 "ERROR", mexcApiErrorMsg env.orderResponse.statusCode env.orderResponse.body⟩]⟩ := by
  simp only [place_real_order]
  rw [if_neg hmkt, if_neg hval, if_neg h200]
  simp [log_trade]

/-- Evaluation of `place_real_order` when the notional check fails. -/
theorem place_belowMin_eval (fmt : ℚ → String) (hmacHex : String → String → String)
    (env : Env) (log0 : List LogRow) (symbol side : String) (quantity strategy_price : ℚ)
    (hmkt : ¬ ((get_current_prices env.bookTicker).ask ≤ 0 ∨
               (get_current_prices env.bookTicker).bid ≤ 0))
    (hval : quantity * orderPriceFor side (get_current_prices env.bookTicker) < min_usdt_value) :
    place_real_order fmt hmacHex env log0 symbol side quantity strategy_price =
      ⟨.belowMinNotional (quantity * orderPriceFor side (get_current_prices env.bookTicker)),
       [symbol], [], log0⟩ := by
  simp only [place_real_order]
  rw [if_neg hmkt, if_pos hval]

/-- Evaluation of `place_real_order` when bid or ask is missing or
non-positive. -/
theorem place_noMarketData_eval (fmt : ℚ → String) (hmacHex : String → String → String)
    (env : Env) (log0 : List LogRow) (symbol side : String) (quantity strategy_price : ℚ)
    (hmkt : (get_current_prices env.bookTicker).ask ≤ 0 ∨
            (get_current_prices env.bookTicker).bid ≤ 0) :
    place_real_order fmt hmacHex env log0 symbol side quantity strategy_price =
      ⟨.noMarketData, [symbol], [], log0⟩ := by
  simp only [place_real_order]
  rw [if_pos hmkt]

/-- `place_real_order` POSTs at most one order request. -/
theorem place_submitted_le_one (fmt : ℚ → String) (hmacHex : String → String → String)
    (env : Env) (log0 : List LogRow) (symbol side : String) (quantity strategy_price : ℚ) :
    (place_real_order fmt hmacHex env log0 symbol side quantity strategy_price).submitted.length
      ≤ 1 := by
  simp only [place_real_order]
  split
  · simp
  · split
    · simp
    · split <;> simp

/-- `place_real_order` appends exactly one audit row per POST performed and
otherwise leaves the log unchanged. -/
theorem place_log_eq_append (fmt : ℚ → String) (hmacHex : String → String → String)
    (env : Env) (log0 : List LogRow) (symbol side : String) (quantity strategy_price : ℚ) :
    ∃ t : List LogRow,
      (place_real_order fmt hmacHex env log0 symbol side quantity strategy_price).log
        = log0 ++ t ∧
      t.length =
        (place_real_order fmt hmacHex env log0 symbol side quantity strategy_price).submitted.length := by
  simp only [place_real_order]
  split
  · exact ⟨[], by simp⟩
  · split
    · exact ⟨[], by simp⟩
    · split
      · refine ⟨_, rfl, ?_⟩
        simp [log_trade]
      · refine ⟨_, rfl, ?_⟩
        simp [log_trade]

end TVMexc

namespace TVMexc

/-- Evaluation of `process_tradingview_alert` on a well-formed BUY alert:
it delegates to `place_real_order` with the upper-cased symbol. -/
theorem process_buy_eval (fmt : ℚ → String) (hmacHex : String → String → String)
    (env : Env) (log0 : List LogRow) (message : String) (quantity strategy_price : ℚ)
    (hlen : ¬ (pySplit message ':').length < 4)
    (hact : pyUpper (pyStrip ((pySplit message ':').getD 0 "")) = "BUY")
    (hq : pyFloat (pyStrip ((pySplit message ':').getD 2 "")) = some quantity)
    (hp : pyFloat (pyStrip ((pySplit message ':').getD 3 "")) = some strategy_price)
    (hqpos : ¬ quantity ≤ 0) :
    process_tradingview_alert fmt hmacHex env log0 message =
      mkAlertOutcome "buy_order_placed" (pyUpper (pyStrip ((pySplit message ':').getD 1 "")))
        quantity strategy_price
        (place_real_order fmt hmacHex env log0
          (pyUpper (pyStrip ((pySplit message ':').getD 1 ""))) "BUY" quantity strategy_price) := by
  simp only [process_tradingview_alert]
  rw [if_neg hlen, hq, hp]
  simp only [hqpos, hact, reduceIte]

/-- Evaluation of `process_tradingview_alert` on a well-formed SELL alert. -/
theorem process_sell_eval (fmt : ℚ → String) (hmacHex : String → String → String)
    (env : Env) (log0 : List LogRow) (message : String) (quantity strategy_price : ℚ)
    (hlen : ¬ (pySplit message ':').length < 4)
    (hact : pyUpper (pyStrip ((pySplit message ':').getD 0 "")) = "SELL")
    (hq : pyFloat (pyStrip ((pySplit message ':').getD 2 "")) = some quantity)
    (hp : pyFloat (pyStrip ((pySplit message ':').getD 3 "")) = some strategy_price)
    (hqpos : ¬ quantity ≤ 0) :
    process_tradingview_alert fmt hmacHex env log0 message =
      mkAlertOutcome "sell_order_placed" (pyUpper (pyStrip ((pySplit message ':').getD 1 "")))
        quantity strategy_price
        (place_real_order fmt hmacHex env log0
          (pyUpper (pyStrip ((pySplit message ':').getD 1 ""))) "SELL" quantity strategy_price) := by
  simp only [process_tradingview_alert]
  rw [if_neg hlen, hq, hp]
  simp only [hqpos, hact, reduceIte]
  rw [if_neg (by decide : ¬ ("SELL" : String) = "BUY")]

/-- Evaluation of `process_tradingview_alert` when the action word is
neither BUY nor SELL. -/
theorem process_unknown_eval (fmt : ℚ → String) (hmacHex : String → String → String)
    (env : Env) (log0 : List LogRow) (message : String) (quantity strategy_price : ℚ)
    (hlen : ¬ (pySplit message ':').length < 4)
    (hq : pyFloat (pyStrip ((pySplit message ':').getD 2 "")) = some quantity)
    (hp : pyFloat (pyStrip ((pySplit message ':').getD 3 "")) = some strategy_price)
    (hqpos : ¬ quantity ≤ 0)
    (hnb : ¬ pyUpper (pyStrip ((pySplit message ':').getD 0 "")) = "BUY")
    (hns : ¬ pyUpper (pyStrip ((pySplit message ':').getD 0 "")) = "SELL") :
    process_tradingview_alert fmt hmacHex env log0 message =
      ⟨.unknownAction (pyUpper (pyStrip ((pySplit message ':').getD 0 ""))), [], [], log0⟩ := by
  simp only [process_tradingview_alert]
  rw [if_neg hlen, hq, hp]
  simp only [hqpos, hnb, hns, reduceIte]

/-- Evaluation of `process_tradingview_alert` when the quantity parses
non-positive. -/
theorem process_invalidQuantity_eval (fmt : ℚ → String) (hmacHex : String → String → String)
    (env : Env) (log0 : List LogRow) (message : String) (quantity strategy_price : ℚ)
    (hlen : ¬ (pySplit message ':').length < 4)
    (hq : pyFloat (pyStrip ((pySplit message ':').getD 2 "")) = some quantity)
    (hp : pyFloat (pyStrip ((pySplit message ':').getD 3 "")) = some strategy_price)
    (hqpos : quantity ≤ 0) :
    process_tradingview_alert fmt hmacHex env log0 message =
      ⟨.invalidQuantity, [], [], log0⟩ := by
  simp only [process_tradingview_alert]
  rw [if_neg hlen, hq, hp]
  simp only [hqpos, reduceIte]

/-- Evaluation of `process_tradingview_alert` when a numeric field does
not parse. -/
theorem process_invalidNumber_eval (fmt : ℚ → String) (hmacHex : String → String → String)
    (env : Env) (log0 : List LogRow) (message : String)
    (hlen : ¬ (pySplit message ':').length < 4)
    (h : pyFloat (pyStrip ((pySplit message ':').getD 2 "")) = none ∨
         pyFloat (pyStrip ((pySplit message ':').getD 3 "")) = none) :
    process_tradingview_alert fmt hmacHex env log0 message =
      ⟨.invalidNumber, [], [], log0⟩ := by
  simp only [process_tradingview_alert]
  rw [if_neg hlen]
  rcases h with h | h
  · rw [h]
  · rw [h]
    cases pyFloat (pyStrip ((pySplit message ':').getD 2 "")) <;> rfl

/-- Evaluation of `process_tradingview_alert` on a message with fewer than
four colon-separated fields. -/
theorem process_invalidFormat_eval (fmt : ℚ → String) (hmacHex : String → String → String)
    (env : Env) (log0 : List LogRow) (message : String)
    (hlen : (pySplit message ':').length < 4) :
    process_tradingview_alert fmt hmacHex env log0 message =
      ⟨.invalidFormat message, [], [], log0⟩ := by
  simp only [process_tradingview_alert]
  rw [if_pos hlen]

/-- One alert causes at most one order submission. -/
theorem process_submitted_le_one (fmt : ℚ → String) (hmacHex : String → String → String)
    (env : Env) (log0 : List LogRow) (message : String) :
    (process_tradingview_alert fmt hmacHex env log0 message).submitted.length ≤ 1 := by
  by_cases hlen : (pySplit message ':').length < 4
  · rw [process_invalidFormat_eval fmt hmacHex env log0 message hlen]
    simp
  · cases hq : pyFloat (pyStrip ((pySplit message ':').getD 2 "")) with
    | none =>
      rw [process_invalidNumber_eval fmt hmacHex env log0 message hlen (Or.inl hq)]
      simp
    | some quantity =>
      cases hp : pyFloat (pyStrip ((pySplit message ':').getD 3 "")) with
      | none =>
        rw [process_invalidNumber_eval fmt hmacHex env log0 message hlen (Or.inr hp)]
        simp
      | some strategy_price =>
        by_cases hqpos : quantity ≤ 0
        · rw [process_invalidQuantity_eval fmt hmacHex env log0 message quantity strategy_price
            hlen hq hp hqpos]
          simp
        · by_cases hb : pyUpper (pyStrip ((pySplit message ':').getD 0 "")) = "BUY"
          · rw [process_buy_eval fmt hmacHex env log0 message quantity strategy_price
              hlen hb hq hp hqpos]
            simpa [mkAlertOutcome] using
              place_submitted_le_one fmt hmacHex env log0 _ "BUY" quantity strategy_price
          · by_cases hs : pyUpper (pyStrip ((pySplit message ':').getD 0 "")) = "SELL"
            · rw [process_sell_eval fmt hmacHex env log0 message quantity strategy_price
                hlen hs hq hp hqpos]
              simpa [mkAlertOutcome] using
                place_submitted_le_one fmt hmacHex env log0 _ "SELL" quantity strategy_price
            · rw [process_unknown_eval fmt hmacHex env log0 message quantity strategy_price
                hlen hq hp hqpos hb hs]
              simp

/-- Processing an alert only appends to the audit log, exactly one row per
submission performed. -/
theorem process_log_eq_append (fmt : ℚ → String) (hmacHex : String → String → String)
    (env : Env) (log0 : List LogRow) (message : String) :
    ∃ t : List LogRow,
      (process_tradingview_alert fmt hmacHex env log0 message).log = log0 ++ t ∧
      t.length = (process_tradingview_alert fmt hmacHex env log0 message).submitted.length := by
  by_cases hlen : (pySplit message ':').length < 4
  · rw [process_invalidFormat_eval fmt hmacHex env log0 message hlen]
    exact ⟨[], by simp⟩
  · cases hq : pyFloat (pyStrip ((pySplit message ':').getD 2 "")) with
    | none =>
      rw [process_invalidNumber_eval fmt hmacHex env log0 message hlen (Or.inl hq)]
      exact ⟨[], by simp⟩
    | some quantity =>
      cases hp : pyFloat (pyStrip ((pySplit message ':').getD 3 "")) with
      | none =>
        rw [process_invalidNumber_eval fmt hmacHex env log0 message hlen (Or.inr hp)]
        exact ⟨[], by simp⟩
      | some strategy_price =>
        by_cases hqpos : quantity ≤ 0
        · rw [process_invalidQuantity_eval fmt hmacHex env log0 message quantity strategy_price
            hlen hq hp hqpos]
          exact ⟨[], by simp⟩
        · by_cases hb : pyUpper (pyStrip ((pySplit message ':').getD 0 "")) = "BUY"
          · rw [process_buy_eval fmt hmacHex env log0 message quantity strategy_price
              hlen hb hq hp hqpos]
            simpa [mkAlertOutcome] using
              place_log_eq_append fmt hmacHex env log0 _ "BUY" quantity strategy_price
          · by_cases hs : pyUpper (pyStrip ((pySplit message ':').getD 0 "")) = "SELL"
            · rw [process_sell_eval fmt hmacHex env log0 message quantity strategy_price
                hlen hs hq hp hqpos]
              simpa [mkAlertOutcome] using
                place_log_eq_append fmt hmacHex env log0 _ "SELL" quantity strategy_price
            · rw [process_unknown_eval fmt hmacHex env log0 message quantity strategy_price
                hlen hq hp hqpos hb hs]
              exact ⟨[], by simp⟩

end TVMexc

namespace TVMexc

/-- C1 (counterexample): on the alert `"BUY:XRPUSDT:0.5"` the parser does
not succeed with a notional-sized instruction — it rejects the message as
invalid format (3 colon-separated fields < 4) and never fetches market
data, so the pipeline cannot fail with `BelowMinimumNotional`. -/
theorem c1_three_field_alert_rejected :
    (process_tradingview_alert fmt0 hmac0 envXrp [] "BUY:XRPUSDT:0.5").result
        = AlertResult.invalidFormat "BUY:XRPUSDT:0.5" ∧
    (process_tradingview_alert fmt0 hmac0 envXrp [] "BUY:XRPUSDT:0.5").marketFetches = [] ∧
    (process_tradingview_alert fmt0 hmac0 envXrp [] "BUY:XRPUSDT:0.5").submitted = [] := by
  decide

/-- C1 (amended): the alert parser accepts only the colon-separated format
with at least four fields (`ACTION:SYMBOL:QUANTITY:STRATEGY_PRICE`); every
message with fewer colon-separated fields — which includes the historical
3-field `ACTION:SYMBOL:PRICE` / `ACTION:SYMBOL:SIZE_USDT` and the
pipe-delimited `ACTION|SYMBOL|PRICE` formats — is rejected with the
invalid-format parse error, with no market-data fetch and no submission. -/
theorem c1_amended_only_four_field_colon_format (fmt : ℚ → String)
    (hmacHex : String → String → String) (env : Env) (log0 : List LogRow) (message : String)
    (hlen : (pySplit message ':').length < 4) :
    (process_tradingview_alert fmt hmacHex env log0 message).result
        = AlertResult.invalidFormat message ∧
    (process_tradingview_alert fmt hmacHex env log0 message).marketFetches = [] ∧
    (process_tradingview_alert fmt hmacHex env log0 message).submitted = [] := by
  rw [process_invalidFormat_eval fmt hmacHex env log0 message hlen]
  exact ⟨rfl, rfl, rfl⟩

/-- C1 (witness): the amended theorem applied to the pipe-delimited alert
`"BUY|XRPUSDT|0.5"`, which splits into a single colon-field. -/
theorem c1_amended_witness :
    (pySplit "BUY|XRPUSDT|0.5" ':').length < 4 ∧
    (process_tradingview_alert fmt0 hmac0 envXrp [] "BUY|XRPUSDT|0.5").result
        = AlertResult.invalidFormat "BUY|XRPUSDT|0.5" :=
  ⟨by decide,
   (c1_amended_only_four_field_colon_format fmt0 hmac0 envXrp [] "BUY|XRPUSDT|0.5" (by decide)).1⟩

/-- C2 (counterexample): the alert `"FOO"` reaches the terminal
parse-failure outcome, yet zero (not exactly one) audit rows are appended
for it. -/
theorem c2_parse_failure_logs_nothing :
    (process_tradingview_alert fmt0 hmac0 envOk [] "FOO").result
        = AlertResult.invalidFormat "FOO" ∧
    (process_tradingview_alert fmt0 hmac0 envOk [] "FOO").log = [] := by
  decide

/-- C2 (amended): the audit log is append-only — processing an alert
extends the previous log — and exactly one row is appended per completed
exchange submission (200 success or non-200 rejection); terminal outcomes
that never submit (parse failure, unknown action, sizing failure, missing
market data) append no row. -/
theorem c2_amended_one_row_per_submission (fmt : ℚ → String)
    (hmacHex : String → String → String) (env : Env) (log0 : List LogRow) (message : String) :
    ∃ t : List LogRow,
      (process_tradingview_alert fmt hmacHex env log0 message).log = log0 ++ t ∧
      t.length = (process_tradingview_alert fmt hmacHex env log0 message).submitted.length ∧
      (process_tradingview_alert fmt hmacHex env log0 message).submitted.length ≤ 1 := by
  obtain ⟨t, h1, h2⟩ := process_log_eq_append fmt hmacHex env log0 message
  exact ⟨t, h1, h2, process_submitted_le_one fmt hmacHex env log0 message⟩

/-- C3 (counterexample): the alert `"BUY:XRPUSDT:5:-1"` carries the
non-positive numeric field `-1` (the strategy price), yet the pipeline
does not fail with any number error: it fetches market data and submits an
order; likewise the five-field alert `"BUY:XRPUSDT:5:2:9"` has the wrong
field count for the documented format, yet is accepted and submitted. -/
theorem c3_negative_strategy_price_not_rejected :
    (process_tradingview_alert fmt0 hmac0 envOk [] "BUY:XRPUSDT:5:-1").marketFetches
        = ["XRPUSDT"] ∧
    (process_tradingview_alert fmt0 hmac0 envOk [] "BUY:XRPUSDT:5:-1").submitted.length = 1 ∧
    (process_tradingview_alert fmt0 hmac0 envOk [] "BUY:XRPUSDT:5:-1").result
        = AlertResult.orderPlaced "buy_order_placed" "XRPUSDT" 5 (-1) (.success "42") ∧
    (process_tradingview_alert fmt0 hmac0 envOk [] "BUY:XRPUSDT:5:2:9").submitted.length = 1 ∧
    (process_tradingview_alert fmt0 hmac0 envOk [] "BUY:XRPUSDT:5:2:9").result
        = AlertResult.orderPlaced "buy_order_placed" "XRPUSDT" 5 2 (.success "42") := by
  have hprices : get_current_prices envOk.bookTicker = ⟨1, 1⟩ := by
    simp [envOk, get_current_prices]
  have hof : orderPriceFor "BUY" (get_current_prices envOk.bookTicker) = 1 := by
    rw [hprices]
    simp +decide [orderPriceFor, pyUpper]
  have hmkt : ¬ ((get_current_prices envOk.bookTicker).ask ≤ 0 ∨
                 (get_current_prices envOk.bookTicker).bid ≤ 0) := by
    rw [hprices]
    norm_num
  have hval : ¬ (5 : ℚ) * orderPriceFor "BUY" (get_current_prices envOk.bookTicker)
      < min_usdt_value := by
    rw [hof]
    norm_num [min_usdt_value]
  have h200 : envOk.orderResponse.statusCode = 200 := rfl
  have hqpos : ¬ (5 : ℚ) ≤ 0 := by norm_num
  have hq1 : pyFloat (pyStrip ((pySplit "BUY:XRPUSDT:5:-1" ':').getD 2 "")) = some 5 := by
    rw [(by decide : pyStrip ((pySplit "BUY:XRPUSDT:5:-1" ':').getD 2 "") = "5")]
    simp +decide [pyFloat, pyFloatDigits, digitsVal]
  have hp1 : pyFloat (pyStrip ((pySplit "BUY:XRPUSDT:5:-1" ':').getD 3 "")) = some (-1) := by
    rw [(by decide : pyStrip ((pySplit "BUY:XRPUSDT:5:-1" ':').getD 3 "") = "-1")]
    simp +decide [pyFloat, pyFloatDigits, digitsVal]
  have hq2 : pyFloat (pyStrip ((pySplit "BUY:XRPUSDT:5:2:9" ':').getD 2 "")) = some 5 := by
    rw [(by decide : pyStrip ((pySplit "BUY:XRPUSDT:5:2:9" ':').getD 2 "") = "5")]
    simp +decide [pyFloat, pyFloatDigits, digitsVal]
  have hp2 : pyFloat (pyStrip ((pySplit "BUY:XRPUSDT:5:2:9" ':').getD 3 "")) = some 2 := by
    rw [(by decide : pyStrip ((pySplit "BUY:XRPUSDT:5:2:9" ':').getD 3 "") = "2")]
    simp +decide [pyFloat, pyFloatDigits, digitsVal]
  rw [process_buy_eval fmt0 hmac0 envOk [] "BUY:XRPUSDT:5:-1" 5 (-1) (by decide) (by decide)
    hq1 hp1 hqpos]
  rw [(by decide : pyUpper (pyStrip ((pySplit "BUY:XRPUSDT:5:-1" ':').getD 1 "")) = "XRPUSDT")]
  rw [place_success_eval fmt0 hmac0 envOk [] "XRPUSDT" "BUY" 5 (-1) hmkt hval h200]
  rw [process_buy_eval fmt0 hmac0 envOk [] "BUY:XRPUSDT:5:2:9" 5 2 (by decide) (by decide)
    hq2 hp2 hqpos]
  rw [(by decide : pyUpper (pyStrip ((pySplit "BUY:XRPUSDT:5:2:9" ':').getD 1 "")) = "XRPUSDT")]
  rw [place_success_eval fmt0 hmac0 envOk [] "XRPUSDT" "BUY" 5 2 hmkt hval h200]
  exact ⟨rfl, rfl, rfl, rfl, rfl⟩

/-- C3 (amended): a message with fewer than four colon-separated fields
fails with the invalid-format error; one whose quantity or strategy-price
field does not parse as a number fails with the number error; a parsed
quantity that is non-positive fails with the quantity error; in every one
of these failure cases no market-data fetch and no exchange submission is
made.  (The strategy price's sign is not checked, and fields beyond the
fourth are ignored rather than rejected.) -/
theorem c3_amended_failure_cases_no_network (fmt : ℚ → String)
    (hmacHex : String → String → String) (env : Env) (log0 : List LogRow) (message : String) :
    ((pySplit message ':').length < 4 →
      (process_tradingview_alert fmt hmacHex env log0 message).result
          = AlertResult.invalidFormat message ∧
      (process_tradingview_alert fmt hmacHex env log0 message).marketFetches = [] ∧
      (process_tradingview_alert fmt hmacHex env log0 message).submitted = []) ∧
    (¬ (pySplit message ':').length < 4 →
      (pyFloat (pyStrip ((pySplit message ':').getD 2 "")) = none ∨
       pyFloat (pyStrip ((pySplit message ':').getD 3 "")) = none) →
      (process_tradingview_alert fmt hmacHex env log0 message).result
          = AlertResult.invalidNumber ∧
      (process_tradingview_alert fmt hmacHex env log0 message).marketFetches = [] ∧
      (process_tradingview_alert fmt hmacHex env log0 message).submitted = []) ∧
    (∀ quantity strategy_price : ℚ,
      ¬ (pySplit message ':').length < 4 →
      pyFloat (pyStrip ((pySplit message ':').getD 2 "")) = some quantity →
      pyFloat (pyStrip ((pySplit message ':').getD 3 "")) = some strategy_price →
      quantity ≤ 0 →
      (process_tradingview_alert fmt hmacHex env log0 message).result
          = AlertResult.invalidQuantity ∧
      (process_tradingview_alert fmt hmacHex env log0 message).marketFetches = [] ∧
      (process_tradingview_alert fmt hmacHex env log0 message).submitted = []) := by
  refine ⟨fun hlen => ?_, fun hlen h => ?_, fun quantity strategy_price hlen hq hp hqpos => ?_⟩
  · rw [process_invalidFormat_eval fmt hmacHex env log0 message hlen]
    exact ⟨rfl, rfl, rfl⟩
  · rw [process_invalidNumber_eval fmt hmacHex env log0 message hlen h]
    exact ⟨rfl, rfl, rfl⟩
  · rw [process_invalidQuantity_eval fmt hmacHex env log0 message quantity strategy_price
      hlen hq hp hqpos]
    exact ⟨rfl, rfl, rfl⟩

/-- C3 (witness): the amended theorem applied to a short alert, a
non-numeric quantity, and a zero quantity. -/
theorem c3_amended_witness :
    (process_tradingview_alert fmt0 hmac0 envOk [] "SELL").result
        = AlertResult.invalidFormat "SELL" ∧
    (process_tradingview_alert fmt0 hmac0 envOk [] "BUY:XRPUSDT:abc:1").result
        = AlertResult.invalidNumber ∧
    (process_tradingview_alert fmt0 hmac0 envOk [] "BUY:XRPUSDT:0:1").result
        = AlertResult.invalidQuantity :=
  ⟨((c3_amended_failure_cases_no_network fmt0 hmac0 envOk [] "SELL").1 (by decide)).1,
   ((c3_amended_failure_cases_no_network fmt0 hmac0 envOk [] "BUY:XRPUSDT:abc:1").2.1
      (by decide) (Or.inl (by decide))).1,
   ((c3_amended_failure_cases_no_network fmt0 hmac0 envOk [] "BUY:XRPUSDT:0:1").2.2 0 1
      (by decide)
      (by rw [(by decide : pyStrip ((pySplit "BUY:XRPUSDT:0:1" ':').getD 2 "") = "0")]
          simp +decide [pyFloat, pyFloatDigits, digitsVal])
      (by rw [(by decide : pyStrip ((pySplit "BUY:XRPUSDT:0:1" ':').getD 3 "") = "1")]
          simp +decide [pyFloat, pyFloatDigits, digitsVal])
      le_rfl).1⟩

end TVMexc

namespace TVMexc

/-- C4: whenever the computed order value (quantity times the live order
price) is below the 1-USDT exchange minimum, `place_real_order` returns
the below-minimum error carrying exactly that order value, submits no
order, and appends nothing to the log — the quantity is never silently
increased to reach the minimum (no request with any quantity is sent at
all). -/
theorem c4_below_min_notional_hard_fails (fmt : ℚ → String)
    (hmacHex : String → String → String) (env : Env) (log0 : List LogRow)
    (symbol side : String) (quantity strategy_price : ℚ)
    (hmkt : ¬ ((get_current_prices env.bookTicker).ask ≤ 0 ∨
               (get_current_prices env.bookTicker).bid ≤ 0))
    (hval : quantity * orderPriceFor side (get_current_prices env.bookTicker) < min_usdt_value) :
    (place_real_order fmt hmacHex env log0 symbol side quantity strategy_price).result
        = PlaceResult.belowMinNotional
            (quantity * orderPriceFor side (get_current_prices env.bookTicker)) ∧
    (place_real_order fmt hmacHex env log0 symbol side quantity strategy_price).submitted = [] ∧
    (place_real_order fmt hmacHex env log0 symbol side quantity strategy_price).log = log0 := by
  rw [place_belowMin_eval fmt hmacHex env log0 symbol side quantity strategy_price hmkt hval]
  exact ⟨rfl, rfl, rfl⟩

/-- C4 (witness): buying 1 XRP at ask 0.50 is worth 0.50 USDT, below the
1-USDT floor, and is rejected without submission. -/
theorem c4_witness :
    ¬ ((get_current_prices envXrp.bookTicker).ask ≤ 0 ∨
       (get_current_prices envXrp.bookTicker).bid ≤ 0) ∧
    (1 : ℚ) * orderPriceFor "BUY" (get_current_prices envXrp.bookTicker) < min_usdt_value ∧
    (place_real_order fmt0 hmac0 envXrp [] "XRPUSDT" "BUY" 1 (1/2)).result
        = PlaceResult.belowMinNotional
            ((1 : ℚ) * orderPriceFor "BUY" (get_current_prices envXrp.bookTicker)) ∧
    (place_real_order fmt0 hmac0 envXrp [] "XRPUSDT" "BUY" 1 (1/2)).submitted = [] := by
  have hprices : get_current_prices envXrp.bookTicker = ⟨49/100, 1/2⟩ := by
    simp [envXrp, get_current_prices]
  have hof : orderPriceFor "BUY" (get_current_prices envXrp.bookTicker) = 1/2 := by
    rw [hprices]
    simp +decide [orderPriceFor, pyUpper]
  have hmkt : ¬ ((get_current_prices envXrp.bookTicker).ask ≤ 0 ∨
                 (get_current_prices envXrp.bookTicker).bid ≤ 0) := by
    rw [hprices]
    norm_num
  have hval : (1 : ℚ) * orderPriceFor "BUY" (get_current_prices envXrp.bookTicker)
      < min_usdt_value := by
    rw [hof]
    norm_num [min_usdt_value]
  have h := c4_below_min_notional_hard_fails fmt0 hmac0 envXrp [] "XRPUSDT" "BUY" 1 (1/2) hmkt hval
  exact ⟨hmkt, hval, h.1, h.2.1⟩

/-- C5 (counterexample): the alert `"BUY:XRPUSDT:100:0.4"` carries a fixed
quantity and the strategy price 0.4, i.e. a price-anchored instruction,
with market snapshot bid 0.49 / ask 0.50; the submitted and logged order
price is 0.50 — the live ask — which is not below the strategy price, so
no slippage offset below the strategy price was applied. -/
theorem c5_priced_at_live_quote_not_strategy :
    ((process_tradingview_alert fmt0 hmac0 envXrp [] "BUY:XRPUSDT:100:0.4").log.map
        (fun r => r.order_price)) = [1/2] ∧
    ((process_tradingview_alert fmt0 hmac0 envXrp [] "BUY:XRPUSDT:100:0.4").log.map
        (fun r => r.strategy_price)) = [2/5] ∧
    ¬ ((1 : ℚ)/2 < 2/5) := by
  have hprices : get_current_prices envXrp.bookTicker = ⟨49/100, 1/2⟩ := by
    simp [envXrp, get_current_prices]
  have hof : orderPriceFor "BUY" (get_current_prices envXrp.bookTicker) = 1/2 := by
    rw [hprices]
    simp +decide [orderPriceFor, pyUpper]
  have hmkt : ¬ ((get_current_prices envXrp.bookTicker).ask ≤ 0 ∨
                 (get_current_prices envXrp.bookTicker).bid ≤ 0) := by
    rw [hprices]
    norm_num
  have hval : ¬ (100 : ℚ) * orderPriceFor "BUY" (get_current_prices envXrp.bookTicker)
      < min_usdt_value := by
    rw [hof]
    norm_num [min_usdt_value]
  have h200 : envXrp.orderResponse.statusCode = 200 := rfl
  have hq : pyFloat (pyStrip ((pySplit "BUY:XRPUSDT:100:0.4" ':').getD 2 "")) = some 100 := by
    rw [(by decide : pyStrip ((pySplit "BUY:XRPUSDT:100:0.4" ':').getD 2 "") = "100")]
    simp +decide [pyFloat, pyFloatDigits, digitsVal]
  have hp : pyFloat (pyStrip ((pySplit "BUY:XRPUSDT:100:0.4" ':').getD 3 "")) = some (2/5) := by
    rw [(by decide : pyStrip ((pySplit "BUY:XRPUSDT:100:0.4" ':').getD 3 "") = "0.4")]
    simp +decide [pyFloat, pyFloatDigits, digitsVal]
    norm_num
  rw [process_buy_eval fmt0 hmac0 envXrp [] "BUY:XRPUSDT:100:0.4" 100 (2/5) (by decide)
    (by decide) hq hp (by norm_num)]
  rw [(by decide : pyUpper (pyStrip ((pySplit "BUY:XRPUSDT:100:0.4" ':').getD 1 ""))
      = "XRPUSDT")]
  rw [place_success_eval fmt0 hmac0 envXrp [] "XRPUSDT" "BUY" 100 (2/5) hmkt hval h200]
  refine ⟨?_, by simp [mkAlertOutcome], by norm_num⟩
  simp [mkAlertOutcome, hof]

/-- C5 (amended): every instruction carries a fixed quantity and a
strategy price, and the order is always priced at the live quote — the
current ask for buys and the current bid otherwise, per `orderPriceFor` —
never by a slippage offset from the strategy price: every logged row
prices the order at the live quote, and the strategy price has no
influence on the result or on the submitted request (changing it changes
neither). -/
theorem c5_amended_always_live_quote (fmt : ℚ → String)
    (hmacHex : String → String → String) (env : Env) (symbol side : String)
    (quantity sp sp' : ℚ) :
    (∀ r ∈ (place_real_order fmt hmacHex env [] symbol side quantity sp).log,
        r.order_price = orderPriceFor side (get_current_prices env.bookTicker) ∧
        r.strategy_price = sp) ∧
    (place_real_order fmt hmacHex env [] symbol side quantity sp).result
        = (place_real_order fmt hmacHex env [] symbol side quantity sp').result ∧
    (place_real_order fmt hmacHex env [] symbol side quantity sp).submitted
        = (place_real_order fmt hmacHex env [] symbol side quantity sp').submitted := by
  by_cases hmkt : (get_current_prices env.bookTicker).ask ≤ 0 ∨
      (get_current_prices env.bookTicker).bid ≤ 0
  · rw [place_noMarketData_eval fmt hmacHex env [] symbol side quantity sp hmkt,
      place_noMarketData_eval fmt hmacHex env [] symbol side quantity sp' hmkt]
    exact ⟨by simp, rfl, rfl⟩
  · by_cases hval : quantity * orderPriceFor side (get_current_prices env.bookTicker)
        < min_usdt_value
    · rw [place_belowMin_eval fmt hmacHex env [] symbol side quantity sp hmkt hval,
        place_belowMin_eval fmt hmacHex env [] symbol side quantity sp' hmkt hval]
      exact ⟨by simp, rfl, rfl⟩
    · by_cases h200 : env.orderResponse.statusCode = 200
      · rw [place_success_eval fmt hmacHex env [] symbol side quantity sp hmkt hval h200,
          place_success_eval fmt hmacHex env [] symbol side quantity sp' hmkt hval h200]
        refine ⟨?_, rfl, rfl⟩
        intro r hr
        simp only [List.nil_append, List.mem_singleton] at hr
        rw [hr]
        exact ⟨rfl, rfl⟩
      · rw [place_apiError_eval fmt hmacHex env [] symbol side quantity sp hmkt hval h200,
          place_apiError_eval fmt hmacHex env [] symbol side quantity sp' hmkt hval h200]
        refine ⟨?_, rfl, rfl⟩
        intro r hr
        simp only [List.nil_append, List.mem_singleton] at hr
        rw [hr]
        exact ⟨rfl, rfl⟩

/-- C5 (witness): the amended theorem applied to a concrete successful BUY
order, whose only log row is priced at the live ask. -/
theorem c5_amended_witness :
    (∀ r ∈ (place_real_order fmt0 hmac0 envOk [] "XRPUSDT" "BUY" 5 2).log,
        r.order_price = orderPriceFor "BUY" (get_current_prices envOk.bookTicker) ∧
        r.strategy_price = 2) ∧
    (place_real_order fmt0 hmac0 envOk [] "XRPUSDT" "BUY" 5 2).result
        = (place_real_order fmt0 hmac0 envOk [] "XRPUSDT" "BUY" 5 3).result :=
  ⟨(c5_amended_always_live_quote fmt0 hmac0 envOk "XRPUSDT" "BUY" 5 2 3).1,
   (c5_amended_always_live_quote fmt0 hmac0 envOk "XRPUSDT" "BUY" 5 2 3).2.1⟩

/-- C7: whenever the market snapshot cannot be retrieved (the book-ticker
call fails) or the returned bid or ask is non-positive,
`place_real_order` fails with the no-market-data error, submits nothing to
the exchange, and logs nothing. -/
theorem c7_no_market_data_blocks (fmt : ℚ → String)
    (hmacHex : String → String → String) (env : Env) (log0 : List LogRow)
    (symbol side : String) (quantity strategy_price : ℚ)
    (h : env.bookTicker = none ∨
         ∃ bt, env.bookTicker = some bt ∧ (bt.bidPrice ≤ 0 ∨ bt.askPrice ≤ 0)) :
    (place_real_order fmt hmacHex env log0 symbol side quantity strategy_price).result
        = PlaceResult.noMarketData ∧
    (place_real_order fmt hmacHex env log0 symbol side quantity strategy_price).submitted = [] ∧
    (place_real_order fmt hmacHex env log0 symbol side quantity strategy_price).log = log0 := by
  have hmkt : (get_current_prices env.bookTicker).ask ≤ 0 ∨
      (get_current_prices env.bookTicker).bid ≤ 0 := by
    rcases h with h | ⟨bt, hbt, hneg⟩
    · rw [h]
      simp [get_current_prices]
    · rw [hbt]
      simp only [get_current_prices]
      tauto
  rw [place_noMarketData_eval fmt hmacHex env log0 symbol side quantity strategy_price hmkt]
  exact ⟨rfl, rfl, rfl⟩

/-- C7 (witness): the theorem applied to the environment whose book-ticker
request fails. -/
theorem c7_witness :
    envNoMarket.bookTicker = none ∧
    (place_real_order fmt0 hmac0 envNoMarket [] "XRPUSDT" "BUY" 5 2).result
        = PlaceResult.noMarketData ∧
    (place_real_order fmt0 hmac0 envNoMarket [] "XRPUSDT" "BUY" 5 2).submitted = [] :=
  ⟨rfl,
   (c7_no_market_data_blocks fmt0 hmac0 envNoMarket [] "XRPUSDT" "BUY" 5 2 (Or.inl rfl)).1,
   (c7_no_market_data_blocks fmt0 hmac0 envNoMarket [] "XRPUSDT" "BUY" 5 2 (Or.inl rfl)).2.1⟩

end TVMexc

namespace TVMexc

/-- C6: the canonical parameter string is insertion-order independent (any
permutation of the parameters canonicalizes identically — for `{b: 2, a: 1}`
it is `a=1&b=2`), its parameters are sorted by ascending key, and the URL
POSTed to the exchange consists of exactly the canonical string that was
signed, followed by the signature computed as the keyed hash
(HMAC-SHA256, hex) of the account secret over that very string. -/
theorem c6_sign_exactly_what_is_sent (fmt : ℚ → String)
    (hmacHex : String → String → String) (env : Env) (log0 : List LogRow)
    (symbol side : String) (quantity strategy_price : ℚ)
    (l l' : List (String × String)) (hperm : l.Perm l')
    (hmkt : ¬ ((get_current_prices env.bookTicker).ask ≤ 0 ∨
               (get_current_prices env.bookTicker).bid ≤ 0))
    (hval : ¬ quantity * orderPriceFor side (get_current_prices env.bookTicker)
        < min_usdt_value) :
    canonicalQueryString l = canonicalQueryString l' ∧
    canonicalQueryString [("b", "2"), ("a", "1")] = "a=1&b=2" ∧
    (sortParams l).Pairwise (fun a b : String × String => strLtB b.1.data a.1.data = false) ∧
    (place_real_order fmt hmacHex env log0 symbol side quantity strategy_price).submitted
      = [mexcOrderEndpoint ++ "?"
          ++ canonicalQueryString (orderParams fmt env symbol side quantity
               (orderPriceFor side (get_current_prices env.bookTicker)))
          ++ "&signature="
          ++ hmacHex env.api_secret (canonicalQueryString (orderParams fmt env symbol side
               quantity (orderPriceFor side (get_current_prices env.bookTicker))))] := by
  refine ⟨canonicalQueryString_perm hperm, by decide, sortParams_keys_sorted l, ?_⟩
  by_cases h200 : env.orderResponse.statusCode = 200
  · rw [place_success_eval fmt hmacHex env log0 symbol side quantity strategy_price
      hmkt hval h200]
  · rw [place_apiError_eval fmt hmacHex env log0 symbol side quantity strategy_price
      hmkt hval h200]

/-- C6 (witness): the theorem applied to the permuted pair list
`{b: 2, a: 1}` / `{a: 1, b: 2}` and a concrete successful order. -/
theorem c6_witness :
    canonicalQueryString [("b", "2"), ("a", "1")]
        = canonicalQueryString [("a", "1"), ("b", "2")] ∧
    canonicalQueryString [("b", "2"), ("a", "1")] = "a=1&b=2" ∧
    (place_real_order fmt0 hmac0 envOk [] "XRPUSDT" "BUY" 5 2).submitted
      = [mexcOrderEndpoint ++ "?"
          ++ canonicalQueryString (orderParams fmt0 envOk "XRPUSDT" "BUY" 5
               (orderPriceFor "BUY" (get_current_prices envOk.bookTicker)))
          ++ "&signature="
          ++ hmac0 envOk.api_secret (canonicalQueryString (orderParams fmt0 envOk "XRPUSDT"
               "BUY" 5 (orderPriceFor "BUY" (get_current_prices envOk.bookTicker))))] := by
  have hprices : get_current_prices envOk.bookTicker = ⟨1, 1⟩ := by
    simp [envOk, get_current_prices]
  have hof : orderPriceFor "BUY" (get_current_prices envOk.bookTicker) = 1 := by
    rw [hprices]
    simp +decide [orderPriceFor, pyUpper]
  have hmkt : ¬ ((get_current_prices envOk.bookTicker).ask ≤ 0 ∨
                 (get_current_prices envOk.bookTicker).bid ≤ 0) := by
    rw [hprices]
    norm_num
  have hval : ¬ (5 : ℚ) * orderPriceFor "BUY" (get_current_prices envOk.bookTicker)
      < min_usdt_value := by
    rw [hof]
    norm_num [min_usdt_value]
  have h := c6_sign_exactly_what_is_sent fmt0 hmac0 envOk [] "XRPUSDT" "BUY" 5 2
    [("b", "2"), ("a", "1")] [("a", "1"), ("b", "2")] (by decide) hmkt hval
  exact ⟨h.1, h.2.1, h.2.2.2⟩

/-- C8: the pipeline never retries a submission — each alert POSTs at most
one order request (shown both for the whole alert pipeline and for
`place_real_order`), and when the exchange answers a submitted request
with a non-200 status the result is the api-error value carrying the raw
status code and body, with still exactly one request sent. -/
theorem c8_no_retry_rejection_reported (fmt : ℚ → String)
    (hmacHex : String → String → String) (env : Env) (log0 : List LogRow)
    (symbol side : String) (quantity strategy_price : ℚ) (message : String) :
    (process_tradingview_alert fmt hmacHex env log0 message).submitted.length ≤ 1 ∧
    (place_real_order fmt hmacHex env log0 symbol side quantity strategy_price).submitted.length
        ≤ 1 ∧
    (env.orderResponse.statusCode ≠ 200 →
      (place_real_order fmt hmacHex env log0 symbol side quantity strategy_price).submitted
          ≠ [] →
      (place_real_order fmt hmacHex env log0 symbol side quantity strategy_price).result
          = PlaceResult.apiError env.orderResponse.statusCode env.orderResponse.body ∧
      (place_real_order fmt hmacHex env log0 symbol side quantity strategy_price).submitted.length
          = 1) := by
  refine ⟨process_submitted_le_one fmt hmacHex env log0 message,
    place_submitted_le_one fmt hmacHex env log0 symbol side quantity strategy_price,
    fun h200 hsub => ?_⟩
  by_cases hmkt : (get_current_prices env.bookTicker).ask ≤ 0 ∨
      (get_current_prices env.bookTicker).bid ≤ 0
  · rw [place_noMarketData_eval fmt hmacHex env log0 symbol side quantity strategy_price
      hmkt] at hsub
    exact absurd rfl hsub
  · by_cases hval : quantity * orderPriceFor side (get_current_prices env.bookTicker)
        < min_usdt_value
    · rw [place_belowMin_eval fmt hmacHex env log0 symbol side quantity strategy_price
        hmkt hval] at hsub
      exact absurd rfl hsub
    · rw [place_apiError_eval fmt hmacHex env log0 symbol side quantity strategy_price
        hmkt hval h200]
      exact ⟨rfl, rfl⟩

/-- C8 (witness): a 400 rejection with body "Oversold" on a live market is
reported as the api-error carrying 400 and "Oversold", after exactly one
submission. -/
theorem c8_witness :
    envReject.orderResponse.statusCode ≠ 200 ∧
    (place_real_order fmt0 hmac0 envReject [] "XRPUSDT" "BUY" 5 2).submitted ≠ [] ∧
    (place_real_order fmt0 hmac0 envReject [] "XRPUSDT" "BUY" 5 2).result
        = PlaceResult.apiError 400 "Oversold" := by
  have hprices : get_current_prices envReject.bookTicker = ⟨1, 1⟩ := by
    simp [envReject, get_current_prices]
  have hof : orderPriceFor "BUY" (get_current_prices envReject.bookTicker) = 1 := by
    rw [hprices]
    simp +decide [orderPriceFor, pyUpper]
  have hmkt : ¬ ((get_current_prices envReject.bookTicker).ask ≤ 0 ∨
                 (get_current_prices envReject.bookTicker).bid ≤ 0) := by
    rw [hprices]
    norm_num
  have hval : ¬ (5 : ℚ) * orderPriceFor "BUY" (get_current_prices envReject.bookTicker)
      < min_usdt_value := by
    rw [hof]
    norm_num [min_usdt_value]
  have h200 : envReject.orderResponse.statusCode ≠ 200 := by decide
  have hsub : (place_real_order fmt0 hmac0 envReject [] "XRPUSDT" "BUY" 5 2).submitted
      ≠ [] := by
    rw [place_apiError_eval fmt0 hmac0 envReject [] "XRPUSDT" "BUY" 5 2 hmkt hval h200]
    simp
  exact ⟨h200, hsub,
    ((c8_no_retry_rejection_reported fmt0 hmac0 envReject [] "XRPUSDT" "BUY" 5 2 "").2.2
      h200 hsub).1⟩

/-- C9: whenever processing an alert reaches an order-placed result, the
symbol acted on is the upper-cased (stripped) second field of the message
and the action is exactly BUY or SELL — the upper-cased first field —
matching the reported status; and when the upper-cased first field is
neither BUY nor SELL, no order-placed result is ever produced (the action
word is rejected). -/
theorem c9_action_and_symbol_upper (fmt : ℚ → String)
    (hmacHex : String → String → String) (env : Env) (log0 : List LogRow)
    (message st sym : String) (q sp : ℚ) (res : PlaceResult) :
    ((process_tradingview_alert fmt hmacHex env log0 message).result
        = AlertResult.orderPlaced st sym q sp res →
      sym = pyUpper (pyStrip ((pySplit message ':').getD 1 "")) ∧
      ((st = "buy_order_placed" ∧
          pyUpper (pyStrip ((pySplit message ':').getD 0 "")) = "BUY") ∨
       (st = "sell_order_placed" ∧
          pyUpper (pyStrip ((pySplit message ':').getD 0 "")) = "SELL"))) ∧
    (pyUpper (pyStrip ((pySplit message ':').getD 0 "")) ≠ "BUY" →
     pyUpper (pyStrip ((pySplit message ':').getD 0 "")) ≠ "SELL" →
     (process_tradingview_alert fmt hmacHex env log0 message).result
        ≠ AlertResult.orderPlaced st sym q sp res) := by
  have main : ∀ hnb : Bool,
      (process_tradingview_alert fmt hmacHex env log0 message).result
          = AlertResult.orderPlaced st sym q sp res →
      sym = pyUpper (pyStrip ((pySplit message ':').getD 1 "")) ∧
      ((st = "buy_order_placed" ∧
          pyUpper (pyStrip ((pySplit message ':').getD 0 "")) = "BUY") ∨
       (st = "sell_order_placed" ∧
          pyUpper (pyStrip ((pySplit message ':').getD 0 "")) = "SELL")) := by
    intro _ h
    by_cases hlen : (pySplit message ':').length < 4
    · rw [process_invalidFormat_eval fmt hmacHex env log0 message hlen] at h
      simp at h
    · cases hq : pyFloat (pyStrip ((pySplit message ':').getD 2 "")) with
      | none =>
        rw [process_invalidNumber_eval fmt hmacHex env log0 message hlen (Or.inl hq)] at h
        simp at h
      | some quantity =>
        cases hp : pyFloat (pyStrip ((pySplit message ':').getD 3 "")) with
        | none =>
          rw [process_invalidNumber_eval fmt hmacHex env log0 message hlen (Or.inr hp)] at h
          simp at h
        | some strategy_price =>
          by_cases hqpos : quantity ≤ 0
          · rw [process_invalidQuantity_eval fmt hmacHex env log0 message quantity
              strategy_price hlen hq hp hqpos] at h
            simp at h
          · by_cases hb : pyUpper (pyStrip ((pySplit message ':').getD 0 "")) = "BUY"
            · rw [process_buy_eval fmt hmacHex env log0 message quantity strategy_price
                hlen hb hq hp hqpos] at h
              simp only [mkAlertOutcome, AlertResult.orderPlaced.injEq] at h
              exact ⟨h.2.1.symm, Or.inl ⟨h.1.symm, hb⟩⟩
            · by_cases hs : pyUpper (pyStrip ((pySplit message ':').getD 0 "")) = "SELL"
              · rw [process_sell_eval fmt hmacHex env log0 message quantity strategy_price
                  hlen hs hq hp hqpos] at h
                simp only [mkAlertOutcome, AlertResult.orderPlaced.injEq] at h
                exact ⟨h.2.1.symm, Or.inr ⟨h.1.symm, hs⟩⟩
              · rw [process_unknown_eval fmt hmacHex env log0 message quantity
                  strategy_price hlen hq hp hqpos hb hs] at h
                simp at h
  refine ⟨main true, fun hnb hns h => ?_⟩
  rcases (main false h).2 with ⟨-, hb⟩ | ⟨-, hs⟩
  · exact hnb hb
  · exact hns hs

/-- C9 (witness): the lower-case alert `"buy:xrpusdt:5:2"` produces an
order-placed result whose symbol and action are the upper-cased fields. -/
theorem c9_witness :
    ("XRPUSDT" : String) = pyUpper (pyStrip ((pySplit "buy:xrpusdt:5:2" ':').getD 1 "")) ∧
    ((("buy_order_placed" : String) = "buy_order_placed" ∧
        pyUpper (pyStrip ((pySplit "buy:xrpusdt:5:2" ':').getD 0 "")) = "BUY") ∨
     (("buy_order_placed" : String) = "sell_order_placed" ∧
        pyUpper (pyStrip ((pySplit "buy:xrpusdt:5:2" ':').getD 0 "")) = "SELL")) := by
  have hprices : get_current_prices envOk.bookTicker = ⟨1, 1⟩ := by
    simp [envOk, get_current_prices]
  have hof : orderPriceFor "BUY" (get_current_prices envOk.bookTicker) = 1 := by
    rw [hprices]
    simp +decide [orderPriceFor, pyUpper]
  have hmkt : ¬ ((get_current_prices envOk.bookTicker).ask ≤ 0 ∨
                 (get_current_prices envOk.bookTicker).bid ≤ 0) := by
    rw [hprices]
    norm_num
  have hval : ¬ (5 : ℚ) * orderPriceFor "BUY" (get_current_prices envOk.bookTicker)
      < min_usdt_value := by
    rw [hof]
    norm_num [min_usdt_value]
  have hq : pyFloat (pyStrip ((pySplit "buy:xrpusdt:5:2" ':').getD 2 "")) = some 5 := by
    rw [(by decide : pyStrip ((pySplit "buy:xrpusdt:5:2" ':').getD 2 "") = "5")]
    simp +decide [pyFloat, pyFloatDigits, digitsVal]
  have hp : pyFloat (pyStrip ((pySplit "buy:xrpusdt:5:2" ':').getD 3 "")) = some 2 := by
    rw [(by decide : pyStrip ((pySplit "buy:xrpusdt:5:2" ':').getD 3 "") = "2")]
    simp +decide [pyFloat, pyFloatDigits, digitsVal]
  have hres : (process_tradingview_alert fmt0 hmac0 envOk [] "buy:xrpusdt:5:2").result
      = AlertResult.orderPlaced "buy_order_placed" "XRPUSDT" 5 2 (.success "42") := by
    rw [process_buy_eval fmt0 hmac0 envOk [] "buy:xrpusdt:5:2" 5 2 (by decide) (by decide)
      hq hp (by norm_num)]
    rw [(by decide : pyUpper (pyStrip ((pySplit "buy:xrpusdt:5:2" ':').getD 1 ""))
        = "XRPUSDT")]
    rw [place_success_eval fmt0 hmac0 envOk [] "XRPUSDT" "BUY" 5 2 hmkt hval rfl]
    rfl
  exact (c9_action_and_symbol_upper fmt0 hmac0 envOk [] "buy:xrpusdt:5:2"
    "buy_order_placed" "XRPUSDT" 5 2 (.success "42")).1 hres

/-- Step equation of the spec-modelled tracker loop. -/
theorem trackFrom_succ (statusAt : Nat → OrderStatus) (budget done : Nat) :
    trackFrom statusAt (budget + 1) done =
      if statusAt done = .FILLED then .filledOutcome (done + 1)
      else if isTerminalFailure (statusAt done) = true then
        .failureOutcome (statusAt done) (done + 1)
      else trackFrom statusAt budget (done + 1) := rfl

/-- C10 (spec-modelled): the Order Tracker polls on the fixed 5-unit
interval with a budget of 12 attempts; on the status sequence
NEW, NEW, FILLED it stops after the third poll recording success; on an
all-NEW sequence it records a timeout after exactly 12 polls; and on a
first poll returning any of the terminal-failure statuses
(CANCELED/EXPIRED/REJECTED) it stops at once recording that failure. -/
theorem c10_tracker_polling (f : Nat → OrderStatus) (s : OrderStatus)
    (hterm : isTerminalFailure s = true) (hf : f 0 = s) :
    pollIntervalDefault = 5 ∧
    maxChecksDefault = 12 ∧
    pollTimes 3 = [5, 10, 15] ∧
    track (fun i => [OrderStatus.NEW, OrderStatus.NEW, OrderStatus.FILLED].getD i
        OrderStatus.NEW) = TrackOutcome.filledOutcome 3 ∧
    track (fun _ => OrderStatus.NEW) = TrackOutcome.timeoutOutcome 12 ∧
    track f = TrackOutcome.failureOutcome s 1 := by
  refine ⟨rfl, rfl, by decide, by decide, by decide, ?_⟩
  have hnf : ¬ f 0 = OrderStatus.FILLED := by
    rw [hf]
    cases s <;> simp_all [isTerminalFailure]
  show trackFrom f (11 + 1) 0 = TrackOutcome.failureOutcome s 1
  rw [trackFrom_succ, if_neg hnf, hf, if_pos hterm]

/-- C10 (witness): a first poll answering CANCELED stops the tracker at
once with the canceled failure. -/
theorem c10_witness :
    isTerminalFailure OrderStatus.CANCELED = true ∧
    track (fun _ => OrderStatus.CANCELED)
        = TrackOutcome.failureOutcome OrderStatus.CANCELED 1 :=
  ⟨rfl, (c10_tracker_polling (fun _ => OrderStatus.CANCELED) OrderStatus.CANCELED
    rfl rfl).2.2.2.2.2⟩

end TVMexc
